import Mathlib

/-!
# Verification of the SOW-Assistant conversation/session manager

Shallow embedding of `src/streamlit_app.py` (the Streamlit chat front-end).
The session state is the five `st.session_state` fields initialised at lines
23–32 of the source; the operations are the event handlers:

* the "New Chat" button (lines 73–111): save-then-reset;
* the per-chat load button (lines 129–134);
* the per-chat delete button (lines 138–145);
* the "Clear Current Chat" button (lines 164–170);
* the `chat_input` handler (lines 184–256): `submit`.

The external query service (`query_rag`) is modelled by passing its outcome —
success with a parsed JSON body, or failure (either `except` branch) — as an
argument to `submit`; the locally generated `uuid.uuid4()` values and
`time.time()` timestamps are likewise passed in as parameters.
-/

/-- A chat message: `HumanMessage` / `AIMessage` with a `content` string. -/
inductive Message where
  | user (content : String)
  | assistant (content : String)
deriving DecidableEq, Repr

/-- A saved chat, one entry of `st.session_state.chat_history`
(the dict built at lines 96–103 of the source). -/
structure Chat where
  id : String
  title : String
  messages : List Message
  thread_id : Option String
  count : Nat
  timestamp : ℚ
deriving DecidableEq, Repr

/-- The five `st.session_state` fields (source lines 23–32). -/
structure SessionState where
  messages : List Message
  thread_id : Option String
  conversation_count : Nat
  chat_history : List Chat
  active_chat_id : Option String
deriving DecidableEq, Repr

/-- The freshly initialised session (source lines 23–32). -/
def initialState : SessionState :=
  { messages := []
    thread_id := none
    conversation_count := 0
    chat_history := []
    active_chat_id := none }

/-- Parsed JSON body of a successful query response; `none` models an absent
field (the source reads every field with `result.get(...)`). Confidence is a
Python float on a 0–10 scale, modelled as a rational. -/
structure QueryResult where
  answer : Option String
  confidence : Option ℚ
  thread_id : Option String
deriving DecidableEq, Repr

/-- Outcome of the `query_rag` call: a parsed response, or an exception
(`httpx.HTTPError` or any other — both `except` branches at lines 251–256
leave the session state untouched). -/
inductive QueryOutcome where
  | success (r : QueryResult)
  | failure
deriving DecidableEq, Repr

/-- Source lines 76–80: scan `st.session_state.messages` for the first
`HumanMessage` and take its content. -/
def firstUserMessage : List Message → Option String
  | [] => none
  | Message.user c :: _ => some c
  | Message.assistant _ :: rest => firstUserMessage rest

/-- Source line 82:
`first_message[:50] + "..." if first_message and len(first_message) > 50
 else (first_message or "New Chat")`.
Python truthiness of a string is non-emptiness; `None` falls to the
`or "New Chat"` branch. -/
def chatTitle (first : Option String) : String :=
  match first with
  | some m =>
      if m ≠ "" ∧ 50 < m.length then m.take 50 ++ "..."
      else if m ≠ "" then m else "New Chat"
  | none => "New Chat"

/-- Source lines 87–93: walk `chat_history` and overwrite the `messages`,
`thread_id` and `count` of the first chat whose `id` matches (then `break`). -/
def updateFirst (aid : String) (msgs : List Message) (tid : Option String)
    (cnt : Nat) : List Chat → List Chat
  | [] => []
  | c :: cs =>
      if c.id = aid then
        { c with messages := msgs, thread_id := tid, count := cnt } :: cs
      else c :: updateFirst aid msgs tid cnt cs

/-- The save block of the "New Chat" button (source lines 75–104).
`freshId` stands for the `str(uuid.uuid4())` and `now` for `time.time()`.
Returns the updated state together with the id of the saved chat
(`none` when nothing was saved because `messages` was empty). -/
def saveWorkingThread (freshId : String) (now : ℚ) (s : SessionState) :
    SessionState × Option String :=
  if s.messages = [] then (s, none)
  else
    let title := chatTitle (firstUserMessage s.messages)
    let chat_exists :=
      match s.active_chat_id with
      | some aid => s.chat_history.any (fun c => c.id = aid)
      | none => false
    if chat_exists then
      match s.active_chat_id with
      | some aid =>
          let h := updateFirst aid s.messages s.thread_id s.conversation_count
            s.chat_history
          ({ s with chat_history := h }, some aid)
      | none => (s, none)  -- unreachable: chat_exists forces active_chat_id
    else
      let newChat : Chat :=
        { id := freshId
          title := title
          messages := s.messages
          thread_id := s.thread_id
          count := s.conversation_count
          timestamp := now }
      ({ s with chat_history := newChat :: s.chat_history }, some freshId)

/-- The full "New Chat" button handler (source lines 73–111): save the
working thread if it has messages, then reset the working state. -/
def newThread (freshId : String) (now : ℚ) (s : SessionState) : SessionState :=
  let s1 := (saveWorkingThread freshId now s).1
  { s1 with messages := [], thread_id := none, conversation_count := 0,
            active_chat_id := none }

/-- The per-chat load button (source lines 129–134): copy the chat's
`messages`, `thread_id` and `count` into the working state and mark it
active. A button only exists for a chat present in `chat_history`, so an
absent id has no handler: modelled as a no-op. -/
def loadThread (id : String) (s : SessionState) : SessionState :=
  match s.chat_history.find? (fun c => c.id = id) with
  | none => s
  | some c =>
      { s with messages := c.messages
               thread_id := c.thread_id
               conversation_count := c.count
               active_chat_id := some c.id }

/-- Source lines 138–145: remove the first chat with the given id (its ids
are unique in any rendered state, each having its own widget key); if it was
the active chat, also reset the working state. A delete button only exists
for a present chat, so an absent id is a no-op. -/
def removeFirst (id : String) : List Chat → List Chat
  | [] => []
  | c :: cs => if c.id = id then cs else c :: removeFirst id cs

/-- The per-chat delete button handler (source lines 138–145). -/
def deleteThread (id : String) (s : SessionState) : SessionState :=
  if s.chat_history.any (fun c => c.id = id) then
    let s1 := { s with chat_history := removeFirst id s.chat_history }
    if s.active_chat_id = some id then
      { s1 with messages := [], thread_id := none, conversation_count := 0,
                active_chat_id := none }
    else s1
  else s

/-- The "Clear Current Chat" button handler body (source lines 166–170);
the button is only rendered while `messages` is non-empty, but its effect is
this unconditional reset. -/
def clearWorkingThread (s : SessionState) : SessionState :=
  { s with messages := [], thread_id := none, conversation_count := 0,
           active_chat_id := none }

/-- Source lines 217–225, the text of the confidence indicator:
`confidence >= 8` → High, `elif confidence >= 6` → Medium, else Low. -/
def confidenceText (c : ℚ) : String :=
  if 8 ≤ c then "High" else if 6 ≤ c then "Medium" else "Low"

/-- Source lines 217–225, the emoji of the confidence indicator. -/
def confidenceEmoji (c : ℚ) : String :=
  if 8 ≤ c then "🟢" else if 6 ≤ c then "🟡" else "🔴"

/-- Models Python's `f"{confidence:.1f}"` (source line 227): the value
rounded to one decimal place, ties to even. Only the shape of the rendered
string matters to the session logic; no claim depends on it. -/
def formatOneDecimal (c : ℚ) : String :=
  let q : ℚ := c * 10
  let n : ℤ := ⌊q⌋
  let frac : ℚ := q - n
  let t : ℤ :=
    if frac > 1/2 then n + 1
    else if frac < 1/2 then n
    else if n % 2 = 0 then n else n + 1
  let sign := if t < 0 then "-" else ""
  sign ++ toString (t.natAbs / 10) ++ "." ++ toString (t.natAbs % 10)

/-- Source lines 210–227: the assistant message body built from a successful
response — `answer` (default `"No answer received"`), two newlines, and the
confidence line with `confidence` defaulting to `0.0`. -/
def fullResponse (r : QueryResult) : String :=
  let answer := r.answer.getD "No answer received"
  let confidence := r.confidence.getD 0
  answer ++ "\n\n" ++ "*Confidence: " ++ confidenceEmoji confidence ++ " "
    ++ confidenceText confidence ++ " (" ++ formatOneDecimal confidence
    ++ "/10)*"

/-- Python truthiness of the `thread_id` session field, as tested by
`if not st.session_state.thread_id:` (source line 241): `None` and the empty
string are both falsy, any non-empty string is truthy. -/
def tokenTruthy : Option String → Bool
  | none => false
  | some t => ¬ t = ""

/-- The `chat_input` handler (source lines 184–256). The walrus guard
`if prompt := st.chat_input(...)` runs the body only for a truthy — i.e.
non-empty — string. The user message is appended before the query call
(line 187); on success the `thread_id` is assigned whenever the current one
is falsy — `None` or `""` (lines 241–244, `if not st.session_state.thread_id:`)
— from the response's `thread_id` or a fresh uuid, the count is incremented
(line 246) and the assistant message appended (line 249); on failure
(either `except` branch) nothing further is mutated. -/
def submit (prompt : String) (outcome : QueryOutcome) (freshUuid : String)
    (s : SessionState) : SessionState :=
  if prompt = "" then s
  else
    let s1 := { s with messages := s.messages ++ [Message.user prompt] }
    match outcome with
    | QueryOutcome.failure => s1
    | QueryOutcome.success r =>
        let s2 :=
          if tokenTruthy s1.thread_id then s1
          else { s1 with thread_id := some (r.thread_id.getD freshUuid) }
        let s3 := { s2 with conversation_count := s2.conversation_count + 1 }
        { s3 with messages := s3.messages ++ [Message.assistant (fullResponse r)] }

/-- Whether the `chat_input` handler reaches the `query_rag` call for a given
prompt: the call sits inside the walrus guard, so it is made iff the prompt
is truthy (non-empty). -/
def submitCallsQuery (prompt : String) : Bool :=
  ¬ prompt = ""

/-- One submit's inputs: the prompt, the query outcome, and the uuid that
would be generated locally if the response carries no `thread_id`. -/
structure SubmitInput where
  prompt : String
  outcome : QueryOutcome
  freshUuid : String
deriving DecidableEq, Repr

/-- A sequence of submits, applied left to right. -/
def submitAll : List SubmitInput → SessionState → SessionState
  | [], s => s
  | i :: rest, s => submitAll rest (submit i.prompt i.outcome i.freshUuid s)

/-- Number of successful submits in a sequence (an empty prompt is a no-op
and counts as nothing). -/
def successfulSubmits (l : List SubmitInput) : Nat :=
  l.countP (fun i =>
    decide (i.prompt ≠ "") &&
      match i.outcome with
      | QueryOutcome.success _ => true
      | QueryOutcome.failure => false)

/-- Number of failed submits in a sequence (an empty prompt is a no-op and
counts as nothing). -/
def failedSubmits (l : List SubmitInput) : Nat :=
  l.countP (fun i =>
    decide (i.prompt ≠ "") &&
      match i.outcome with
      | QueryOutcome.success _ => false
      | QueryOutcome.failure => true)

/-- The continuity token a fresh thread ends up with after a sequence of
submits: the first effective successful submit supplies it — the response's
`thread_id` if present, otherwise the locally generated uuid. -/
def firstSuccessToken : List SubmitInput → Option String
  | [] => none
  | i :: rest =>
      if i.prompt = "" then firstSuccessToken rest
      else
        match i.outcome with
        | QueryOutcome.success r => some (r.thread_id.getD i.freshUuid)
        | QueryOutcome.failure => firstSuccessToken rest

/-- The commands the presentation layer can issue against the session. -/
inductive Op where
  | newThread (freshId : String) (now : ℚ)
  | save (freshId : String) (now : ℚ)
  | load (id : String)
  | delete (id : String)
  | clear
  | submit (i : SubmitInput)
deriving DecidableEq, Repr

/-- Apply one command to the session state. -/
def applyOp : Op → SessionState → SessionState
  | Op.newThread f now, s => newThread f now s
  | Op.save f now, s => (saveWorkingThread f now s).1
  | Op.load id, s => loadThread id s
  | Op.delete id, s => deleteThread id s
  | Op.clear, s => clearWorkingThread s
  | Op.submit i, s => submit i.prompt i.outcome i.freshUuid s

/-- Every saved chat has a non-empty message list. -/
def historyInv (s : SessionState) : Prop :=
  ∀ c ∈ s.chat_history, c.messages ≠ []

/-- A question that is empty after trimming whitespace: every character is
whitespace (Python `q.strip() == ""`). -/
def isBlank (q : String) : Bool :=
  q.toList.all Char.isWhitespace

/-! ## Helper lemmas -/

theorem submit_chat_history (p : String) (o : QueryOutcome) (u : String)
    (s : SessionState) : (submit p o u s).chat_history = s.chat_history := by
  unfold submit
  by_cases hp : p = "" <;> simp [hp]
  cases o <;> simp
  split <;> rfl

theorem submit_thread_id_truthy (p : String) (o : QueryOutcome) (u : String)
    (s : SessionState) (t : String) (ht : t ≠ "") (h : s.thread_id = some t) :
    (submit p o u s).thread_id = some t := by
  unfold submit
  by_cases hp : p = "" <;> simp [hp, h]
  cases o <;> simp [tokenTruthy, h, ht]

theorem submitAll_thread_id_truthy (l : List SubmitInput) (s : SessionState)
    (t : String) (ht : t ≠ "") (h : s.thread_id = some t) :
    (submitAll l s).thread_id = some t := by
  induction l generalizing s with
  | nil => exact h
  | cons i rest ih =>
      exact ih _ (submit_thread_id_truthy i.prompt i.outcome i.freshUuid s t ht h)

theorem submit_thread_id_isSome (p : String) (o : QueryOutcome) (u : String)
    (s : SessionState) (t : String) (h : s.thread_id = some t) :
    ∃ t', (submit p o u s).thread_id = some t' := by
  unfold submit
  by_cases hp : p = "" <;> simp [hp, h]
  cases o <;> simp [tokenTruthy, h]
  by_cases he : t = "" <;> simp [he, h]

theorem submitAll_thread_id_isSome (l : List SubmitInput) (s : SessionState)
    (t : String) (h : s.thread_id = some t) :
    ∃ t', (submitAll l s).thread_id = some t' := by
  induction l generalizing s t with
  | nil => exact ⟨t, h⟩
  | cons i rest ih =>
      obtain ⟨t', ht'⟩ := submit_thread_id_isSome i.prompt i.outcome i.freshUuid s t h
      exact ih _ t' ht'

/-! ## C1: atomicity of a failed submit -/

/-- Claim C1: for every submit whose query-service call fails, the user
message appended before the call remains as the last entry of the working
messages, no assistant message is appended (the message list grows by exactly
that one user message), and the continuity token and turn count are unchanged
from their values before the submit. -/
theorem submit_failure_atomic (s : SessionState) (prompt freshUuid : String)
    (h : prompt ≠ "") :
    (submit prompt QueryOutcome.failure freshUuid s).messages
        = s.messages ++ [Message.user prompt] ∧
    (submit prompt QueryOutcome.failure freshUuid s).messages.getLast?
        = some (Message.user prompt) ∧
    (submit prompt QueryOutcome.failure freshUuid s).thread_id = s.thread_id ∧
    (submit prompt QueryOutcome.failure freshUuid s).conversation_count
        = s.conversation_count := by
  simp [submit, h]

/-- Witness for C1 at a concrete failing submit. -/
theorem submit_failure_atomic_witness :
    ("What is SOW-123?" : String) ≠ "" ∧
    ((submit "What is SOW-123?" QueryOutcome.failure "u0" initialState).messages
        = initialState.messages ++ [Message.user "What is SOW-123?"] ∧
    (submit "What is SOW-123?" QueryOutcome.failure "u0" initialState).messages.getLast?
        = some (Message.user "What is SOW-123?") ∧
    (submit "What is SOW-123?" QueryOutcome.failure "u0" initialState).thread_id
        = initialState.thread_id ∧
    (submit "What is SOW-123?" QueryOutcome.failure "u0" initialState).conversation_count
        = initialState.conversation_count) :=
  ⟨by decide, submit_failure_atomic initialState "What is SOW-123?" "u0" (by decide)⟩

/-! ## C5: confidence bucketing -/

/-- Claim C5: the derived confidence annotation is "High" iff
confidence ≥ 8, "Medium" iff 6 ≤ confidence < 8 and "Low" iff
confidence < 6; an absent confidence field defaults to 0 and yields "Low". -/
theorem confidence_bucketing (c : ℚ) :
    (confidenceText c = "High" ↔ 8 ≤ c) ∧
    (confidenceText c = "Medium" ↔ 6 ≤ c ∧ c < 8) ∧
    (confidenceText c = "Low" ↔ c < 6) ∧
    (none : Option ℚ).getD 0 = 0 ∧ confidenceText 0 = "Low" := by
  refine ⟨?_, ?_, ?_, rfl, by decide⟩ <;>
    by_cases h8 : (8 : ℚ) ≤ c <;> by_cases h6 : (6 : ℚ) ≤ c <;>
      simp [confidenceText, h8, h6] <;>
      first
      | decide
      | linarith

/-! ## C7: empty-after-trimming questions -/

/-- Counterexample to claim C7 as stated: the whitespace-only question `" "`
is empty after trimming, yet submitting it is not a no-op — the walrus guard
at source line 184 only tests Python truthiness, so a non-empty whitespace
string passes it and a user message is appended (and the query call is made). -/
theorem submit_whitespace_counterexample :
    isBlank " " = true ∧
    submit " " QueryOutcome.failure "u0" initialState ≠ initialState ∧
    (submit " " QueryOutcome.failure "u0" initialState).messages
        = [Message.user " "] ∧
    submitCallsQuery " " = true := by
  refine ⟨by decide, ?_, by decide, by decide⟩
  intro h
  have : (submit " " QueryOutcome.failure "u0" initialState).messages
      = initialState.messages := by rw [h]
  simp [submit, initialState] at this

/-- Claim C7 amended: for every question string that is empty (the guard
tests truthiness of the raw string, not of its trimmed form), submit is a
no-op — no message is appended, no query-service call is made, and the
session state is unchanged. -/
theorem submit_empty_noop (o : QueryOutcome) (u : String) (s : SessionState) :
    submit "" o u s = s ∧ submitCallsQuery "" = false := by
  constructor
  · simp [submit]
  · decide

/-! ## C2: message-count accounting -/

theorem submit_messages_length (p : String) (o : QueryOutcome) (u : String)
    (s : SessionState) :
    (submit p o u s).messages.length =
      s.messages.length +
        (if p = "" then 0
         else match o with
              | QueryOutcome.success _ => 2
              | QueryOutcome.failure => 1) := by
  unfold submit
  by_cases hp : p = "" <;> simp [hp]
  cases o <;> simp
  split <;> simp

theorem submitAll_messages_length (l : List SubmitInput) (s : SessionState) :
    (submitAll l s).messages.length =
      s.messages.length + 2 * successfulSubmits l + failedSubmits l := by
  induction l generalizing s with
  | nil => simp [submitAll, successfulSubmits, failedSubmits]
  | cons i rest ih =>
      have hlen := submit_messages_length i.prompt i.outcome i.freshUuid s
      simp only [submitAll, successfulSubmits, failedSubmits,
        List.countP_cons] at *
      rw [ih, hlen]
      by_cases hp : i.prompt = "" <;> cases hi : i.outcome <;>
        simp [hp, hi] <;> omega

/-- Counterexample to claim C2 as stated: after two failed submits from the
empty working thread there are two unanswered user messages, so the claimed
bound "unansweredUserMessages is 0 or 1" fails — the length 2 equals neither
`2 * successfulSubmits + 0` nor `2 * successfulSubmits + 1` (successfulSubmits
being 0 here). -/
theorem submit_unanswered_counterexample :
    (submitAll [⟨"a", QueryOutcome.failure, "u"⟩, ⟨"b", QueryOutcome.failure, "v"⟩]
        initialState).messages.length = 2 ∧
    successfulSubmits
        [⟨"a", QueryOutcome.failure, "u"⟩, ⟨"b", QueryOutcome.failure, "v"⟩] = 0 ∧
    ¬ ((submitAll [⟨"a", QueryOutcome.failure, "u"⟩, ⟨"b", QueryOutcome.failure, "v"⟩]
          initialState).messages.length =
        2 * successfulSubmits
            [⟨"a", QueryOutcome.failure, "u"⟩, ⟨"b", QueryOutcome.failure, "v"⟩] + 0 ∨
       (submitAll [⟨"a", QueryOutcome.failure, "u"⟩, ⟨"b", QueryOutcome.failure, "v"⟩]
          initialState).messages.length =
        2 * successfulSubmits
            [⟨"a", QueryOutcome.failure, "u"⟩, ⟨"b", QueryOutcome.failure, "v"⟩] + 1) := by
  refine ⟨by decide, by decide, ?_⟩
  decide

/-- Claim C2 amended: for every sequence of submit calls starting from the
empty working thread, the length of the working messages equals
2 × successfulSubmits + failedSubmits — each failed submit leaves exactly one
unanswered user message, so the number of unanswered user messages equals the
number of failed submits and is not bounded by 1 (empty-prompt submits are
no-ops and count as neither). -/
theorem submitAll_length_accounting (l : List SubmitInput) :
    (submitAll l initialState).messages.length =
      2 * successfulSubmits l + failedSubmits l := by
  have h := submitAll_messages_length l initialState
  simpa [initialState] using h

/-! ## C4: continuity-token lifecycle -/

theorem submit_of_prompt_empty (o : QueryOutcome) (u : String)
    (s : SessionState) : submit "" o u s = s := by
  simp [submit]

theorem submit_thread_id (p : String) (o : QueryOutcome) (u : String)
    (s : SessionState) :
    (submit p o u s).thread_id =
      if p = "" then s.thread_id
      else
        match o with
        | QueryOutcome.failure => s.thread_id
        | QueryOutcome.success r =>
            if tokenTruthy s.thread_id then s.thread_id
            else some (r.thread_id.getD u) := by
  unfold submit
  by_cases hp : p = "" <;> simp [hp]
  cases o <;> simp
  split <;> simp_all

theorem submitAll_thread_id_no_success (l : List SubmitInput)
    (s : SessionState) (h : s.thread_id = none)
    (hfst : firstSuccessToken l = none) :
    (submitAll l s).thread_id = none := by
  induction l generalizing s with
  | nil => exact h
  | cons i rest ih =>
      by_cases hp : i.prompt = ""
      · rw [show submitAll (i :: rest) s
              = submitAll rest (submit i.prompt i.outcome i.freshUuid s) from rfl,
            hp, submit_of_prompt_empty]
        exact ih s h (by simpa [firstSuccessToken, hp] using hfst)
      · cases ho : i.outcome with
        | failure =>
            have ht : (submit i.prompt i.outcome i.freshUuid s).thread_id
                = none := by
              rw [submit_thread_id]; simp [hp, ho, h]
            exact ih _ ht (by simpa [firstSuccessToken, hp, ho] using hfst)
        | success r =>
            exfalso
            rw [firstSuccessToken] at hfst
            simp [hp, ho] at hfst

theorem submitAll_thread_id_first_truthy (l : List SubmitInput)
    (s : SessionState) (tok : String) (htok : tok ≠ "")
    (h : s.thread_id = none) (hfst : firstSuccessToken l = some tok) :
    (submitAll l s).thread_id = some tok := by
  induction l generalizing s with
  | nil => simp [firstSuccessToken] at hfst
  | cons i rest ih =>
      by_cases hp : i.prompt = ""
      · rw [show submitAll (i :: rest) s
              = submitAll rest (submit i.prompt i.outcome i.freshUuid s) from rfl,
            hp, submit_of_prompt_empty]
        exact ih s h (by simpa [firstSuccessToken, hp] using hfst)
      · cases ho : i.outcome with
        | failure =>
            have ht : (submit i.prompt i.outcome i.freshUuid s).thread_id
                = none := by
              rw [submit_thread_id]; simp [hp, ho, h]
            exact ih _ ht (by simpa [firstSuccessToken, hp, ho] using hfst)
        | success r =>
            have hfst' : r.thread_id.getD i.freshUuid = tok := by
              rw [firstSuccessToken] at hfst
              simpa [hp, ho] using hfst
            have ht : (submit i.prompt i.outcome i.freshUuid s).thread_id
                = some tok := by
              rw [submit_thread_id]
              simp [hp, ho, h, tokenTruthy, hfst']
            exact submitAll_thread_id_truthy rest _ tok htok ht

/-- Counterexample to claim C4 as stated: the token guard at source line 241
is a Python truthiness test (`if not st.session_state.thread_id:`), which
also fires on a stored empty-string token. A first successful submit whose
response carries the present-but-empty token `""` sets the working token
(absent → present); the next successful submit, whose response carries
`"xyz"`, overwrites it — so "once set it is never overwritten by later
submits" fails. -/
theorem continuity_token_overwrite_counterexample :
    (submitAll [⟨"q1", QueryOutcome.success ⟨none, none, some ""⟩, "u1"⟩]
        initialState).thread_id = some "" ∧
    (submitAll [⟨"q1", QueryOutcome.success ⟨none, none, some ""⟩, "u1"⟩,
                ⟨"q2", QueryOutcome.success ⟨none, none, some "xyz"⟩, "u2"⟩]
        initialState).thread_id = some "xyz" ∧
    ("" : String) ≠ "xyz" :=
  ⟨rfl, rfl, by decide⟩

/-- Claim C4 amended: across a sequence of submits the working continuity
token, once present, is never cleared, and once it holds a non-empty token it
is never overwritten; a fresh thread acquires its token on the first
successful submit — the response's token if supplied, otherwise the locally
synthesized uuid — and keeps exactly that token whenever it is non-empty. The
exception the code forces: a present-but-empty response token is Python-falsy,
so the code stores it but treats the thread as still fresh, and the next
successful submit may overwrite it. The operations that do clear the token
(clear, the new-chat reset, deleting the active chat) empty the message list
at the same time, so the token is never cleared while the thread still has
messages. -/
theorem continuity_token_lifecycle (s : SessionState) (l : List SubmitInput)
    (freshId : String) (now : ℚ) (delId : String) :
    (∀ t, s.thread_id = some t → ∃ t', (submitAll l s).thread_id = some t') ∧
    (∀ t, t ≠ "" → s.thread_id = some t →
      (submitAll l s).thread_id = some t) ∧
    (s.thread_id = none → firstSuccessToken l = none →
      (submitAll l s).thread_id = none) ∧
    (∀ tok, tok ≠ "" → s.thread_id = none → firstSuccessToken l = some tok →
      (submitAll l s).thread_id = some tok) ∧
    ((clearWorkingThread s).thread_id = none ∧
      (clearWorkingThread s).messages = []) ∧
    ((newThread freshId now s).thread_id = none ∧
      (newThread freshId now s).messages = []) ∧
    ((deleteThread delId s).thread_id = s.thread_id ∨
      ((deleteThread delId s).thread_id = none ∧
        (deleteThread delId s).messages = [])) := by
  refine ⟨fun t ht => submitAll_thread_id_isSome l s t ht,
    fun t hne ht => submitAll_thread_id_truthy l s t hne ht,
    fun h hf => submitAll_thread_id_no_success l s h hf,
    fun tok hne h hf => submitAll_thread_id_first_truthy l s tok hne h hf,
    ⟨rfl, rfl⟩, ⟨rfl, rfl⟩, ?_⟩
  unfold deleteThread
  by_cases hg : s.chat_history.any (fun c => c.id = delId) <;> simp [hg]
  by_cases ha : s.active_chat_id = some delId <;> simp [ha]

/-- Witness for C4: from a fresh session, one successful submit whose
response carries the non-empty token `"abc"` sets the working token to
exactly that. -/
theorem continuity_token_lifecycle_witness :
    ("abc" : String) ≠ "" ∧
    initialState.thread_id = none ∧
    firstSuccessToken
        [⟨"q", QueryOutcome.success ⟨some "a", some 9, some "abc"⟩, "u"⟩]
      = some "abc" ∧
    (submitAll [⟨"q", QueryOutcome.success ⟨some "a", some 9, some "abc"⟩, "u"⟩]
        initialState).thread_id = some "abc" :=
  ⟨by decide, rfl, by decide,
   (continuity_token_lifecycle initialState
      [⟨"q", QueryOutcome.success ⟨some "a", some 9, some "abc"⟩, "u"⟩]
      "f" 0 "d").2.2.2.1 "abc" (by decide) rfl (by decide)⟩

/-! ## Characterizations of the save and load paths -/

theorem save_of_messages_empty (freshId : String) (now : ℚ) (s : SessionState)
    (h : s.messages = []) : saveWorkingThread freshId now s = (s, none) := by
  unfold saveWorkingThread
  simp [h]

theorem save_insert (freshId : String) (now : ℚ) (s : SessionState)
    (h : s.messages ≠ [])
    (hact : (match s.active_chat_id with
             | some aid => s.chat_history.any (fun c => c.id = aid)
             | none => false) = false) :
    saveWorkingThread freshId now s =
      ({ s with chat_history :=
          { id := freshId
            title := chatTitle (firstUserMessage s.messages)
            messages := s.messages
            thread_id := s.thread_id
            count := s.conversation_count
            timestamp := now } :: s.chat_history }, some freshId) := by
  unfold saveWorkingThread
  simp [h, hact]

theorem save_update (freshId : String) (now : ℚ) (s : SessionState)
    (aid : String) (h : s.messages ≠ []) (ha : s.active_chat_id = some aid)
    (hany : s.chat_history.any (fun c => c.id = aid) = true) :
    saveWorkingThread freshId now s =
      ({ s with
          chat_history := updateFirst aid s.messages s.thread_id
            s.conversation_count s.chat_history }, some aid) := by
  unfold saveWorkingThread
  simp [h, ha, hany]

theorem loadThread_chat_history (id : String) (s : SessionState) :
    (loadThread id s).chat_history = s.chat_history := by
  unfold loadThread
  cases s.chat_history.find? (fun c => c.id = id) <;> rfl

/-! ## C6: title derivation -/

/-- Claim C6: the derived title of a saved thread is the content of the first
user message, truncated to its first 50 characters with "..." appended when
longer than 50 characters, and is the literal "New Chat" when no user message
exists; the save of a thread not yet in the history stores exactly this
derived title. (User messages reaching a save are non-empty, since the submit
guard rejects the empty prompt.) -/
theorem title_derivation (m : String) (h : m ≠ "") :
    (chatTitle (some m)
        = if 50 < m.length then m.take 50 ++ "..." else m) ∧
    chatTitle none = "New Chat" ∧
    (∀ (s : SessionState) (freshId : String) (now : ℚ),
      s.active_chat_id = none → s.messages ≠ [] →
      ((saveWorkingThread freshId now s).1.chat_history.head?.map Chat.title)
        = some (chatTitle (firstUserMessage s.messages))) := by
  refine ⟨?_, rfl, ?_⟩
  · unfold chatTitle
    by_cases hl : 50 < m.length <;> simp [h, hl]
  · intro s freshId now hact hm
    rw [save_insert freshId now s hm (by simp [hact])]
    rfl

/-- Witness for C6 at the spec's example first user message (64 characters,
so the stored title is its first 50 characters plus "..."). -/
theorem title_derivation_witness :
    ("Tell me about the Acme SOW deliverables and milestones in detail"
        : String) ≠ "" ∧
    chatTitle
        (some "Tell me about the Acme SOW deliverables and milestones in detail")
      = (if 50 < ("Tell me about the Acme SOW deliverables and milestones in detail"
            : String).length
         then ("Tell me about the Acme SOW deliverables and milestones in detail"
            : String).take 50 ++ "..."
         else "Tell me about the Acme SOW deliverables and milestones in detail") ∧
    chatTitle none = "New Chat" :=
  ⟨by decide,
   (title_derivation
      "Tell me about the Acme SOW deliverables and milestones in detail"
      (by decide)).1,
   (title_derivation
      "Tell me about the Acme SOW deliverables and milestones in detail"
      (by decide)).2.1⟩

/-! ## C3: save/load round trip -/

theorem find?_updateFirst (aid : String) (m : List Message)
    (t : Option String) (k : Nat) (l : List Chat)
    (h : l.any (fun c => c.id = aid) = true) :
    ∃ c, (updateFirst aid m t k l).find? (fun c => c.id = aid) = some c ∧
      c.id = aid ∧ c.messages = m ∧ c.thread_id = t ∧ c.count = k := by
  induction l with
  | nil => simp at h
  | cons c0 cs ih =>
      by_cases hc : c0.id = aid
      · refine ⟨{ c0 with messages := m, thread_id := t, count := k },
          ?_, hc, rfl, rfl, rfl⟩
        unfold updateFirst
        rw [if_pos hc]
        exact List.find?_cons_of_pos _ (by simpa using hc)
      · have h' : cs.any (fun c => c.id = aid) = true := by
          simpa [hc] using h
        obtain ⟨c, hfind, hid, hm, ht, hk⟩ := ih h'
        refine ⟨c, ?_, hid, hm, ht, hk⟩
        unfold updateFirst
        rw [if_neg hc]
        rw [List.find?_cons_of_neg _ (by simpa using hc)]
        exact hfind

/-- Claim C3: for every working state with non-empty messages, saving the
working thread and then loading the id it was saved under restores the
working messages, continuity token and turn count to exactly their values
before the save; and because a later submit never touches the stored
history, mutating the working state afterwards leaves the stored thread
unchanged until the next save. -/
theorem save_load_roundtrip (s : SessionState) (freshId : String) (now : ℚ)
    (h : s.messages ≠ []) :
    ∃ id, (saveWorkingThread freshId now s).2 = some id ∧
      (loadThread id (saveWorkingThread freshId now s).1).messages
          = s.messages ∧
      (loadThread id (saveWorkingThread freshId now s).1).thread_id
          = s.thread_id ∧
      (loadThread id (saveWorkingThread freshId now s).1).conversation_count
          = s.conversation_count ∧
      ∀ (p : String) (o : QueryOutcome) (u : String),
        (submit p o u
            (loadThread id (saveWorkingThread freshId now s).1)).chat_history
          = (loadThread id (saveWorkingThread freshId now s).1).chat_history := by
  have hsub : ∀ s' : SessionState, ∀ (p : String) (o : QueryOutcome) (u : String),
      (submit p o u s').chat_history = s'.chat_history :=
    fun s' p o u => submit_chat_history p o u s'
  rcases hact : s.active_chat_id with _ | aid
  · -- no active chat: a fresh entry is inserted at the front under freshId
    rw [save_insert freshId now s h (by simp [hact])]
    refine ⟨freshId, rfl, ?_, ?_, ?_, fun p o u => hsub _ p o u⟩ <;>
      simp [loadThread, List.find?_cons_of_pos]
  · by_cases hany : s.chat_history.any (fun c => c.id = aid) = true
    · -- active chat present: its entry is overwritten in place under aid
      rw [save_update freshId now s aid h hact hany]
      obtain ⟨c, hfind, hid, hm, ht, hk⟩ :=
        find?_updateFirst aid s.messages s.thread_id s.conversation_count
          s.chat_history hany
      refine ⟨aid, rfl, ?_, ?_, ?_, fun p o u => hsub _ p o u⟩ <;>
        simp [loadThread, hfind, hm, ht, hk]
    · -- stale active id: falls through to the insert path
      rw [save_insert freshId now s h (by simp [hact, hany])]
      refine ⟨freshId, rfl, ?_, ?_, ?_, fun p o u => hsub _ p o u⟩ <;>
        simp [loadThread, List.find?_cons_of_pos]

/-- Witness for C3: one-message working thread in a fresh session. -/
theorem save_load_roundtrip_witness :
    ({ initialState with messages := [Message.user "hi"] }
        : SessionState).messages ≠ [] ∧
    ∃ id,
      (saveWorkingThread "id1" 0
          { initialState with messages := [Message.user "hi"] }).2 = some id ∧
      (loadThread id (saveWorkingThread "id1" 0
          { initialState with messages := [Message.user "hi"] }).1).messages
        = ({ initialState with messages := [Message.user "hi"] }
            : SessionState).messages ∧
      (loadThread id (saveWorkingThread "id1" 0
          { initialState with messages := [Message.user "hi"] }).1).thread_id
        = ({ initialState with messages := [Message.user "hi"] }
            : SessionState).thread_id ∧
      (loadThread id (saveWorkingThread "id1" 0
          { initialState with messages := [Message.user "hi"] }).1).conversation_count
        = ({ initialState with messages := [Message.user "hi"] }
            : SessionState).conversation_count ∧
      ∀ (p : String) (o : QueryOutcome) (u : String),
        (submit p o u (loadThread id (saveWorkingThread "id1" 0
            { initialState with messages := [Message.user "hi"] }).1)).chat_history
          = (loadThread id (saveWorkingThread "id1" 0
              { initialState with messages := [Message.user "hi"] }).1).chat_history :=
  ⟨by decide,
   save_load_roundtrip { initialState with messages := [Message.user "hi"] }
     "id1" 0 (by decide)⟩

/-! ## C8: deletion is idempotent -/

theorem deleteThread_of_absent (id : String) (s : SessionState)
    (h : s.chat_history.any (fun c => c.id = id) = false) :
    deleteThread id s = s := by
  unfold deleteThread
  simp [h]

theorem removeFirst_any_eq_false (id : String) (l : List Chat)
    (h : (l.map Chat.id).Nodup) :
    (removeFirst id l).any (fun c => c.id = id) = false := by
  induction l with
  | nil => simp [removeFirst]
  | cons c cs ih =>
      simp only [List.map_cons, List.nodup_cons] at h
      by_cases hc : c.id = id
      · unfold removeFirst
        rw [if_pos hc]
        simp only [List.any_eq_false, decide_eq_true_eq]
        intro c' hmem he
        exact h.1 (by rw [hc, ← he]; exact List.mem_map_of_mem Chat.id hmem)
      · unfold removeFirst
        rw [if_neg hc]
        simp [hc, ih h.2]

/-- Claim C8: deleting a thread is idempotent — on any session whose saved
ids are distinct (they are fresh uuids, and duplicate ids cannot even render,
their widget keys colliding), deleting the same id twice yields the same
state as deleting it once; and deleting an id absent from the saved threads
is a no-op rather than an error. -/
theorem deleteThread_idempotent (id : String) (s : SessionState)
    (h : (s.chat_history.map Chat.id).Nodup) :
    deleteThread id (deleteThread id s) = deleteThread id s ∧
    (s.chat_history.any (fun c => c.id = id) = false →
      deleteThread id s = s) := by
  refine ⟨?_, fun ha => deleteThread_of_absent id s ha⟩
  by_cases hg : s.chat_history.any (fun c => c.id = id) = true
  · have hist : (deleteThread id s).chat_history = removeFirst id s.chat_history := by
      unfold deleteThread
      rw [if_pos hg]
      by_cases ha : s.active_chat_id = some id <;> simp [ha]
    exact deleteThread_of_absent id (deleteThread id s)
      (by rw [hist]; exact removeFirst_any_eq_false id s.chat_history h)
  · rw [deleteThread_of_absent id s (by simpa using hg)]
    exact deleteThread_of_absent id s (by simpa using hg)

/-- Witness for C8: a session holding one saved chat, deleted under its id
and under an absent id. -/
theorem deleteThread_idempotent_witness :
    ((({ initialState with chat_history :=
          [{ id := "c1", title := "t", messages := [Message.user "hi"],
             thread_id := none, count := 0, timestamp := 0 }] }
        : SessionState).chat_history.map Chat.id).Nodup ∧
      deleteThread "c1" (deleteThread "c1"
          { initialState with chat_history :=
            [{ id := "c1", title := "t", messages := [Message.user "hi"],
               thread_id := none, count := 0, timestamp := 0 }] })
        = deleteThread "c1"
            { initialState with chat_history :=
              [{ id := "c1", title := "t", messages := [Message.user "hi"],
                 thread_id := none, count := 0, timestamp := 0 }] }) :=
  ⟨by decide,
   (deleteThread_idempotent "c1"
      { initialState with chat_history :=
        [{ id := "c1", title := "t", messages := [Message.user "hi"],
           thread_id := none, count := 0, timestamp := 0 }] }
      (by decide)).1⟩

/-! ## C9: saved threads are never empty -/

theorem mem_updateFirst (aid : String) (m : List Message) (t : Option String)
    (k : Nat) (l : List Chat) (c : Chat)
    (h : c ∈ updateFirst aid m t k l) : c.messages = m ∨ c ∈ l := by
  induction l with
  | nil => simp [updateFirst] at h
  | cons c0 cs ih =>
      unfold updateFirst at h
      by_cases hc : c0.id = aid
      · rw [if_pos hc] at h
        rcases List.mem_cons.mp h with h1 | h1
        · exact Or.inl (by rw [h1])
        · exact Or.inr (List.mem_cons_of_mem c0 h1)
      · rw [if_neg hc] at h
        rcases List.mem_cons.mp h with h1 | h1
        · exact Or.inr (by rw [h1]; exact List.mem_cons_self c0 cs)
        · rcases ih h1 with h2 | h2
          · exact Or.inl h2
          · exact Or.inr (List.mem_cons_of_mem c0 h2)

theorem mem_removeFirst (id : String) (l : List Chat) (c : Chat)
    (h : c ∈ removeFirst id l) : c ∈ l := by
  induction l with
  | nil => simp [removeFirst] at h
  | cons c0 cs ih =>
      unfold removeFirst at h
      by_cases hc : c0.id = id
      · rw [if_pos hc] at h
        exact List.mem_cons_of_mem c0 h
      · rw [if_neg hc] at h
        rcases List.mem_cons.mp h with h1 | h1
        · exact h1 ▸ List.mem_cons_self c0 cs
        · exact List.mem_cons_of_mem c0 (ih h1)

theorem save_historyInv (freshId : String) (now : ℚ) (s : SessionState)
    (h : historyInv s) : historyInv (saveWorkingThread freshId now s).1 := by
  by_cases hm : s.messages = []
  · rw [save_of_messages_empty freshId now s hm]
    exact h
  · rcases hact : s.active_chat_id with _ | aid
    · rw [save_insert freshId now s hm (by simp [hact])]
      intro c hc
      rcases List.mem_cons.mp hc with h1 | h1
      · rw [h1]; exact hm
      · exact h c h1
    · by_cases hany : s.chat_history.any (fun c => c.id = aid) = true
      · rw [save_update freshId now s aid hm hact hany]
        intro c hc
        rcases mem_updateFirst aid s.messages s.thread_id s.conversation_count
            s.chat_history c hc with h1 | h1
        · rw [h1]; exact hm
        · exact h c h1
      · rw [save_insert freshId now s hm (by simp [hact, hany])]
        intro c hc
        rcases List.mem_cons.mp hc with h1 | h1
        · rw [h1]; exact hm
        · exact h c h1

/-- Claim C9: every saved thread has a non-empty message list, and every
operation — new chat, save, load, delete, clear, submit — preserves this
invariant: an empty working thread is never persisted. -/
theorem historyInv_preserved (op : Op) (s : SessionState)
    (h : historyInv s) : historyInv (applyOp op s) := by
  cases op with
  | newThread freshId now =>
      intro c hc
      exact save_historyInv freshId now s h c hc
  | save freshId now => exact save_historyInv freshId now s h
  | load id =>
      intro c hc
      simp only [applyOp] at hc
      rw [loadThread_chat_history] at hc
      exact h c hc
  | delete id =>
      intro c hc
      simp only [applyOp] at hc
      by_cases hg : s.chat_history.any (fun c => c.id = id) = true
      · have : c ∈ removeFirst id s.chat_history := by
          unfold deleteThread at hc
          rw [if_pos hg] at hc
          by_cases ha : s.active_chat_id = some id <;> simpa [ha] using hc
        exact h c (mem_removeFirst id s.chat_history c this)
      · unfold deleteThread at hc
        rw [if_neg hg] at hc
        exact h c hc
  | clear => exact h
  | submit i =>
      intro c hc
      rw [show (applyOp (Op.submit i) s).chat_history
            = (submit i.prompt i.outcome i.freshUuid s).chat_history from rfl,
        submit_chat_history] at hc
      exact h c hc

/-- Witness for C9: the invariant holds on a one-chat session and is kept by
a new-chat command on a working thread with one message. -/
theorem historyInv_preserved_witness :
    historyInv
      { initialState with
          messages := [Message.user "hi"],
          chat_history :=
            [{ id := "c1", title := "t", messages := [Message.user "old"],
               thread_id := none, count := 1, timestamp := 0 }] } ∧
    historyInv (applyOp (Op.newThread "c2" 1)
      { initialState with
          messages := [Message.user "hi"],
          chat_history :=
            [{ id := "c1", title := "t", messages := [Message.user "old"],
               thread_id := none, count := 1, timestamp := 0 }] }) :=
  ⟨by intro c hc; fin_cases hc; decide,
   historyInv_preserved (Op.newThread "c2" 1)
     { initialState with
         messages := [Message.user "hi"],
         chat_history :=
           [{ id := "c1", title := "t", messages := [Message.user "old"],
              thread_id := none, count := 1, timestamp := 0 }] }
     (by intro c hc; fin_cases hc; decide)⟩

/-! ## C10: clear resets the active id, so the next save inserts -/

/-- Claim C10: clearing the working thread resets the active thread id to
none in addition to clearing the working messages, continuity token and turn
count, while leaving the saved threads untouched; consequently a later save
of a (repopulated) working thread with no active id inserts a fresh entry at
the front of the saved threads — the entry that was active before the clear
stays in place unchanged — instead of overwriting it. -/
theorem clear_then_save_inserts (s s2 : SessionState) (freshId : String)
    (now : ℚ) :
    (clearWorkingThread s).active_chat_id = none ∧
    (clearWorkingThread s).messages = [] ∧
    (clearWorkingThread s).thread_id = none ∧
    (clearWorkingThread s).conversation_count = 0 ∧
    (clearWorkingThread s).chat_history = s.chat_history ∧
    (s2.active_chat_id = none → s2.messages ≠ [] →
      (saveWorkingThread freshId now s2).1.chat_history
          = { id := freshId
              title := chatTitle (firstUserMessage s2.messages)
              messages := s2.messages
              thread_id := s2.thread_id
              count := s2.conversation_count
              timestamp := now } :: s2.chat_history ∧
        (saveWorkingThread freshId now s2).2 = some freshId) := by
  refine ⟨rfl, rfl, rfl, rfl, rfl, fun hact hm => ?_⟩
  rw [save_insert freshId now s2 hm (by simp [hact])]
  exact ⟨rfl, rfl⟩

/-- Witness for C10: after a clear, saving a repopulated one-message working
thread prepends a fresh entry and keeps the previously saved chat intact. -/
theorem clear_then_save_inserts_witness :
    ({ clearWorkingThread
        { initialState with
            messages := [Message.user "old"],
            active_chat_id := some "c1",
            chat_history :=
              [{ id := "c1", title := "t", messages := [Message.user "old"],
                 thread_id := none, count := 1, timestamp := 0 }] } with
        messages := [Message.user "hi"] } : SessionState).active_chat_id
      = none ∧
    ({ clearWorkingThread
        { initialState with
            messages := [Message.user "old"],
            active_chat_id := some "c1",
            chat_history :=
              [{ id := "c1", title := "t", messages := [Message.user "old"],
                 thread_id := none, count := 1, timestamp := 0 }] } with
        messages := [Message.user "hi"] } : SessionState).messages ≠ [] ∧
    (saveWorkingThread "c2" 1
        { clearWorkingThread
            { initialState with
                messages := [Message.user "old"],
                active_chat_id := some "c1",
                chat_history :=
                  [{ id := "c1", title := "t",
                     messages := [Message.user "old"],
                     thread_id := none, count := 1, timestamp := 0 }] } with
          messages := [Message.user "hi"] }).1.chat_history
      = { id := "c2",
          title := chatTitle (firstUserMessage [Message.user "hi"]),
          messages := [Message.user "hi"], thread_id := none, count := 0,
          timestamp := 1 }
        :: [{ id := "c1", title := "t", messages := [Message.user "old"],
              thread_id := none, count := 1, timestamp := 0 }] :=
  ⟨rfl, by decide,
   ((clear_then_save_inserts initialState
      { clearWorkingThread
          { initialState with
              messages := [Message.user "old"],
              active_chat_id := some "c1",
              chat_history :=
                [{ id := "c1", title := "t", messages := [Message.user "old"],
                   thread_id := none, count := 1, timestamp := 0 }] } with
        messages := [Message.user "hi"] } "c2" 1).2.2.2.2.2 rfl
      (by decide)).1⟩
